import Mathlib

/-!
# herald: start-up arguments (`server/args.go`) and the Hub gRPC service
(`protobuf/go/hub_grpc.pb.go`)

Go strings are embedded as `String`, Go `int` as `Int`, a pointer that may be
nil as `Option`, a Go map from strings to strings as a lookup function, and a
run-time panic as the result `none`.
-/

set_option maxRecDepth 8192

/-! ## Standard-library functions the code calls -/

namespace strings

/-- Cut a character list at every occurrence of `sep`; the pieces never contain `sep`,
and a list without `sep` is returned as the single piece. -/
def splitChars (sep : Char) : List Char → List (List Char)
  | [] => [[]]
  | c :: cs =>
    if c = sep then [] :: splitChars sep cs
    else
      match splitChars sep cs with
      | [] => [[c]]
      | piece :: pieces => (c :: piece) :: pieces

/-- Go `strings.Split(s, sep)` for a separator of one character. -/
def Split (s : String) (sep : Char) : List String :=
  (splitChars sep s.data).map String.mk

/-- Go `strings.HasPrefix(s, p)`. -/
def HasPrefix (s p : String) : Bool :=
  p.data.isPrefixOf s.data

end strings

namespace strconv

/-- An ASCII decimal digit. -/
def isDigit (c : Char) : Bool :=
  decide (48 ≤ c.toNat) && decide (c.toNat ≤ 57)

/-- Value of a list of decimal digits, most significant first. -/
def digitsValue (cs : List Char) : Nat :=
  cs.foldl (fun n c => n * 10 + (c.toNat - 48)) 0

/-- Go `strconv.ParseUint(s, 10, bitSize)`: `none` stands for a returned error
(empty input, a character that is not a digit, or a value of `2 ^ bitSize` or more). -/
def ParseUint (s : String) (bitSize : Nat) : Option Nat :=
  if s.data = [] then none
  else if s.data.all isDigit then
    if digitsValue s.data < 2 ^ bitSize then some (digitsValue s.data) else none
  else none

/-- Go `strconv.Atoi(s)` on a 64-bit platform: an optional sign followed by decimal
digits, in the range of `int`; `none` stands for a returned error. -/
def Atoi (s : String) : Option Int :=
  match s.data with
  | [] => none
  | c :: cs =>
    let body := if c = '-' ∨ c = '+' then cs else c :: cs
    if body = [] then none
    else if body.all isDigit then
      let v : Int := if c = '-' then - (digitsValue body : Int) else (digitsValue body : Int)
      if - (2 : Int) ^ 63 ≤ v ∧ v < (2 : Int) ^ 63 then some v else none
    else none

end strconv

/-- A Go `map[string]string`, seen through its lookups: `m k = some v` when the key `k`
is present with value `v`, and `none` when `k` is absent. -/
def GoMap : Type := String → Option String

namespace GoMap

/-- The map made by `make(map[string]string)`. -/
def empty : GoMap := fun _ => none

/-- The assignment `m[key] = val`. -/
def set (m : GoMap) (key val : String) : GoMap :=
  fun k => if k = key then some val else m k

end GoMap

/-! ## `package pb`: the messages `ParseArgs` writes to -/

namespace pb

/-- The message `pb.InvertibleField`, with the two fields the code sets. -/
structure InvertibleField where
  Invert : Bool
  Value : List String
  deriving DecidableEq, Repr

/-- The message `pb.SearchRequest`, with the fields `ParseArgs` writes. -/
structure SearchRequest where
  Text : String
  ClaimName : String
  ClaimType : List String
  ClaimId : Option InvertibleField
  Author : String
  Title : String
  Description : String
  ChannelId : Option InvertibleField
  deriving DecidableEq, Repr

end pb

/-! ## `package server`: `args.go` -/

namespace server

def ServeCmd : Int := 0
def SearchCmd : Int := 1
def DBCmd : Int := 2

/-- Args struct contains the arguments to the hub server. -/
structure Args where
  CmdType : Int
  Host : String
  Port : String
  DBPath : String
  Chain : Option String
  EsHost : String
  EsPort : String
  PrometheusPort : String
  NotifierPort : String
  JSONRPCPort : Int
  JSONRPCHTTPPort : Int
  MaxSessions : Int
  SessionTimeout : Int
  EsIndex : String
  RefreshDelta : Int
  CacheTTL : Int
  PeerFile : String
  Banner : Option String
  Country : String
  BlockingChannelIds : List String
  FilteringChannelIds : List String
  GenesisHash : String
  ServerVersion : String
  ProtocolMin : String
  ProtocolMax : String
  ServerDescription : String
  PaymentAddress : String
  DonationAddress : String
  DailyFee : String
  Debug : Bool
  DisableEs : Bool
  DisableLoadPeers : Bool
  DisableStartPrometheus : Bool
  DisableStartUDP : Bool
  DisableWritePeers : Bool
  DisableFederation : Bool
  DisableRocksDBRefresh : Bool
  DisableResolve : Bool
  DisableBlockingAndFiltering : Bool
  DisableStartNotifier : Bool
  DisableStartJSONRPC : Bool
  deriving DecidableEq, Repr

def DefaultHost : String := "0.0.0.0"
def DefaultPort : String := "50051"
def DefaultDBPath : String := "/mnt/d/data/snapshot_1072108/lbry-rocksdb/"
def DefaultEsHost : String := "http://localhost"
def DefaultEsIndex : String := "claims"
def DefaultEsPort : String := "9200"
def DefaultPrometheusPort : String := "2112"
def DefaultNotifierPort : String := "18080"
def DefaultJSONRPCPort : Int := 50001
def DefaultJSONRPCHTTPPort : Int := 50002
def DefaultMaxSessions : Int := 10000
def DefaultSessionTimeout : Int := 300
def DefaultRefreshDelta : Int := 5
def DefaultCacheTTL : Int := 5
def DefaultPeerFile : String := "peers.txt"
def DefaultBannerFile : String := ""
def DefaultCountry : String := "US"

def HUB_PROTOCOL_VERSION : String := "0.107.0"
def PROTOCOL_MIN : String := "0.54.0"
def PROTOCOL_MAX : String := "0.199.0"
def DefaultServerDescription : String := "Herald"
def DefaultPaymentAddress : String := ""
def DefaultDonationAddress : String := ""
def DefaultDailyFee : String := "1.0"

def DefaultDisableLoadPeers : Bool := false
def DefaultDisableStartPrometheus : Bool := false
def DefaultDisableStartUDP : Bool := false
def DefaultDisableWritePeers : Bool := false
def DefaultDisableFederation : Bool := false
def DefaultDisableRockDBRefresh : Bool := false
def DefaultDisableResolve : Bool := false
def DefaultDisableBlockingAndFiltering : Bool := false
def DisableStartNotifier : Bool := false
def DisableStartJSONRPC : Bool := false

def DefaultBlockingChannelIds : List String := []
def DefaultFilteringChannelIds : List String := []

/-- The function `loadBanner` of `args.go`. `readFile` stands for `os.ReadFile` (`none` is
a returned error, `some data` the contents of the file); the result is the pointer
`&banner`, which is never nil. -/
def loadBanner (readFile : String → Option String) (bannerFile : String)
    (serverVersion : String) : Option String :=
  let banner : String :=
    match readFile bannerFile with
    | none => "You are connected to an " ++ serverVersion ++ " server."
    | some data => data
  some banner

/-- MakeDefaultArgs creates a default set of arguments for testing the server.
`genesisHash` stands for `chaincfg.TestNet3Params.GenesisHash.String()`; a field that the
struct literal leaves out (`Chain`, `BlockingChannelIds`, `FilteringChannelIds`,
`DisableFederation`) has its zero value. -/
def MakeDefaultTestArgs (genesisHash : String) : Args :=
  { CmdType := ServeCmd
    Host := DefaultHost
    Port := DefaultPort
    DBPath := DefaultDBPath
    EsHost := DefaultEsHost
    EsPort := DefaultEsPort
    PrometheusPort := DefaultPrometheusPort
    NotifierPort := DefaultNotifierPort
    JSONRPCPort := DefaultJSONRPCPort
    JSONRPCHTTPPort := DefaultJSONRPCHTTPPort
    MaxSessions := DefaultMaxSessions
    SessionTimeout := DefaultSessionTimeout
    EsIndex := DefaultEsIndex
    RefreshDelta := DefaultRefreshDelta
    CacheTTL := DefaultCacheTTL
    PeerFile := DefaultPeerFile
    Banner := none
    Country := DefaultCountry
    GenesisHash := genesisHash
    ServerVersion := HUB_PROTOCOL_VERSION
    ProtocolMin := PROTOCOL_MIN
    ProtocolMax := PROTOCOL_MAX
    ServerDescription := DefaultServerDescription
    PaymentAddress := DefaultPaymentAddress
    DonationAddress := DefaultDonationAddress
    DailyFee := DefaultDailyFee
    DisableEs := true
    Debug := true
    DisableLoadPeers := true
    DisableStartPrometheus := true
    DisableStartUDP := true
    DisableWritePeers := true
    DisableRocksDBRefresh := true
    DisableResolve := true
    DisableBlockingAndFiltering := true
    DisableStartNotifier := true
    DisableStartJSONRPC := true
    Chain := none
    BlockingChannelIds := []
    FilteringChannelIds := []
    DisableFederation := false }

/-- The loop of `GetEnvironment`, started from the map `items`. -/
def GetEnvironment.loop (getkeyval : String → Option (String × String)) :
    GoMap → List String → Option GoMap
  | items, [] => some items
  | items, item :: rest =>
    match getkeyval item with
    | none => none
    | some (key, val) => GetEnvironment.loop getkeyval (items.set key val) rest

/-- GetEnvironment takes the environment variables as an array of strings
and a getkeyval function to turn it into a map. A `getkeyval` that panics on an
item (`none`) makes the whole call panic. -/
def GetEnvironment (data : List String) (getkeyval : String → Option (String × String)) :
    Option GoMap :=
  GetEnvironment.loop getkeyval GoMap.empty data

/-- The function literal passed by `GetEnvironmentStandard`: `splits[0]` and `splits[1]`
of `strings.Split(item, "=")`; indexing past the end of `splits` panics. -/
def GetEnvironmentStandard.getkeyval (item : String) : Option (String × String) :=
  let splits := strings.Split item '='
  match splits[0]?, splits[1]? with
  | some key, some val => some (key, val)
  | _, _ => none

/-- GetEnvironmentStandard gets the environment variables as a map; `environ` is the
result of `os.Environ()`. -/
def GetEnvironmentStandard (environ : List String) : Option GoMap :=
  GetEnvironment environ GetEnvironmentStandard.getkeyval

/-! ### The command line, as the argparse library reads it -/

/-- The options found on a command line (`os.Args`) by the argparse parser that `ParseArgs`
declares: for an option with a value, the text given for it (`none` when the option does
not occur); for a list option, the values of its occurrences in order; for a flag, whether
it occurs; for the three sub-commands, whether each happened. `rejected` is set when the
scanning itself fails (an unknown argument, an option without its value, an option given
twice), with the error argparse reports. -/
structure CommandLine where
  rejected : Option String := none
  serve : Bool := false
  search : Bool := false
  db : Bool := false
  rpchost : Option String := none
  rpcport : Option String := none
  db_path : Option String := none
  chain : Option String := none
  eshost : Option String := none
  esport : Option String := none
  prometheus_port : Option String := none
  notifier_port : Option String := none
  json_rpc_port : Option String := none
  json_rpc_http_port : Option String := none
  max_sessions : Option String := none
  session_timeout : Option String := none
  esindex : Option String := none
  refresh_delta : Option String := none
  cachettl : Option String := none
  peerfile : Option String := none
  bannerfile : Option String := none
  country : Option String := none
  blocking_channel_ids : List String := []
  filtering_channel_ids : List String := []
  server_description : Option String := none
  payment_address : Option String := none
  donation_address : Option String := none
  daily_fee : Option String := none
  debug : Bool := false
  disable_es : Bool := false
  disable_load_peers : Bool := false
  disable_start_prometheus : Bool := false
  disable_start_udp : Bool := false
  disable_write_peers : Bool := false
  disable_federation : Bool := false
  disable_rocksdb_refresh : Bool := false
  disable_resolve : Bool := false
  disable_blocking_and_filtering : Bool := false
  disable_start_notifier : Bool := false
  disable_start_jsonrpc : Bool := false
  text : Option String := none
  name : Option String := none
  claim_type : Option String := none
  id : Option String := none
  author : Option String := none
  title : Option String := none
  description : Option String := none
  channel_id : Option String := none
  channel_ids : List String := []
  deriving DecidableEq, Repr

/-- The error returned by `parser.Parse`. -/
inductive ParseError where
  | rejected (msg : String)
  | invalid (flag : String) (value : String)
  deriving DecidableEq, Repr

/-- The values behind the pointers that the parser handed out, after a successful
`parser.Parse`; the fields carry the names of the local variables of `ParseArgs`. -/
structure Parsed where
  serveCmd : Bool
  searchCmd : Bool
  dbCmd : Bool
  host : String
  port : String
  dbPath : String
  chain : String
  esHost : String
  esPort : String
  prometheusPort : String
  notifierPort : String
  jsonRPCPort : Int
  jsonRPCHTTPPort : Int
  maxSessions : Int
  sessionTimeout : Int
  esIndex : String
  refreshDelta : Int
  cacheTTL : Int
  peerFile : String
  bannerFile : String
  country : String
  blockingChannelIds : List String
  filteringChannelIds : List String
  serverDescription : String
  paymentAddress : String
  donationAddress : String
  dailyFee : String
  debug : Bool
  disableEs : Bool
  disableLoadPeers : Bool
  disableStartPrometheus : Bool
  disableStartUdp : Bool
  disableWritePeers : Bool
  disableFederation : Bool
  disableRocksDBRefresh : Bool
  disableResolve : Bool
  disableBlockingAndFiltering : Bool
  disableStartNotifier : Bool
  disableStartJSONRPC : Bool
  text : String
  name : String
  claimType : String
  id : String
  author : String
  title : String
  description : String
  channelId : String
  channelIds : List String
  deriving DecidableEq, Repr

/-- The closure `validatePort` of `ParseArgs`: `strconv.ParseUint(arg[0], 10, 16)` returns
no error. argparse calls it with the one value of the option. -/
def validatePort (arg : List String) : Bool :=
  match arg with
  | [] => false
  | arg0 :: _ => (strconv.ParseUint arg0 16).isSome

/-- An argparse `String` option: the given text, or the `Default` of its options when the
option does not occur. An option declared without `Default` has the default `""`. -/
def argparse.stringArg (given : Option String) (dflt : String) : String :=
  given.getD dflt

/-- An argparse `Flag` option: `true` when the flag occurs, and the `Default` of its
options when it does not. -/
def argparse.flagArg (present : Bool) (dflt : Bool) : Bool :=
  if present then true else dflt

/-- An argparse `StringList` option: the values of its occurrences, and the `Default` of
its options when it does not occur. -/
def argparse.stringListArg (given : List String) (dflt : List String) : List String :=
  if given = [] then dflt else given

/-- An argparse `Int` option: when the option occurs, its `Validate` function (if any) is
run on the text, then the text is converted with `strconv.Atoi`; when it does not occur the
result is the `Default` of its options. -/
def argparse.intArg (flag : String) (validate : Option (List String → Bool))
    (given : Option String) (dflt : Int) : Except ParseError Int :=
  match given with
  | none => .ok dflt
  | some raw =>
    if (validate.map (fun v => v [raw])).getD true then
      match strconv.Atoi raw with
      | some n => .ok n
      | none => .error (.invalid flag raw)
    else .error (.invalid flag raw)

/-- An argparse `Selector` option: the given text must be one of the allowed values. -/
def argparse.selectorArg (flag : String) (allowed : List String)
    (given : Option String) (dflt : String) : Except ParseError String :=
  match given with
  | none => .ok dflt
  | some raw => if raw ∈ allowed then .ok raw else .error (.invalid flag raw)

/-- The names of the chain parameters `MainNetParams`, `TestNet3Params` and
`RegressionNetParams` of the package `chaincfg`. -/
def chaincfg.MainNetParams.Name : String := "mainnet"
def chaincfg.TestNet3Params.Name : String := "testnet3"
def chaincfg.RegressionNetParams.Name : String := "regtest"

/-- The call `parser.Parse(os.Args)` for the options declared at the head of `ParseArgs`,
each with the `Default` and `Validate` of its declaration. -/
def argparse (cl : CommandLine) : Except ParseError Parsed :=
  match cl.rejected with
  | some msg => .error (.rejected msg)
  | none => do
    let chain ← argparse.selectorArg "chain"
      [chaincfg.MainNetParams.Name, chaincfg.TestNet3Params.Name,
        chaincfg.RegressionNetParams.Name, "testnet"]
      cl.chain chaincfg.MainNetParams.Name
    let jsonRPCPort ← argparse.intArg "json-rpc-port" (some validatePort)
      cl.json_rpc_port DefaultJSONRPCPort
    let jsonRPCHTTPPort ← argparse.intArg "json-rpc-http-port" (some validatePort)
      cl.json_rpc_http_port DefaultJSONRPCHTTPPort
    let maxSessions ← argparse.intArg "max-sessions" none cl.max_sessions DefaultMaxSessions
    let sessionTimeout ← argparse.intArg "session-timeout" none cl.session_timeout
      DefaultSessionTimeout
    let refreshDelta ← argparse.intArg "refresh-delta" none cl.refresh_delta
      DefaultRefreshDelta
    let cacheTTL ← argparse.intArg "cachettl" none cl.cachettl DefaultCacheTTL
    pure {
      serveCmd := cl.serve
      searchCmd := cl.search
      dbCmd := cl.db
      host := argparse.stringArg cl.rpchost DefaultHost
      port := argparse.stringArg cl.rpcport DefaultPort
      dbPath := argparse.stringArg cl.db_path DefaultDBPath
      chain := chain
      esHost := argparse.stringArg cl.eshost DefaultEsHost
      esPort := argparse.stringArg cl.esport DefaultEsPort
      prometheusPort := argparse.stringArg cl.prometheus_port DefaultPrometheusPort
      notifierPort := argparse.stringArg cl.notifier_port DefaultNotifierPort
      jsonRPCPort := jsonRPCPort
      jsonRPCHTTPPort := jsonRPCHTTPPort
      maxSessions := maxSessions
      sessionTimeout := sessionTimeout
      esIndex := argparse.stringArg cl.esindex DefaultEsIndex
      refreshDelta := refreshDelta
      cacheTTL := cacheTTL
      peerFile := argparse.stringArg cl.peerfile DefaultPeerFile
      bannerFile := argparse.stringArg cl.bannerfile DefaultBannerFile
      country := argparse.stringArg cl.country DefaultCountry
      blockingChannelIds :=
        argparse.stringListArg cl.blocking_channel_ids DefaultBlockingChannelIds
      filteringChannelIds :=
        argparse.stringListArg cl.filtering_channel_ids DefaultFilteringChannelIds
      serverDescription := argparse.stringArg cl.server_description DefaultServerDescription
      paymentAddress := argparse.stringArg cl.payment_address DefaultPaymentAddress
      donationAddress := argparse.stringArg cl.donation_address DefaultDonationAddress
      dailyFee := argparse.stringArg cl.daily_fee DefaultDailyFee
      debug := argparse.flagArg cl.debug false
      disableEs := argparse.flagArg cl.disable_es false
      disableLoadPeers := argparse.flagArg cl.disable_load_peers DefaultDisableLoadPeers
      disableStartPrometheus :=
        argparse.flagArg cl.disable_start_prometheus DefaultDisableStartPrometheus
      disableStartUdp := argparse.flagArg cl.disable_start_udp DefaultDisableStartUDP
      disableWritePeers := argparse.flagArg cl.disable_write_peers DefaultDisableWritePeers
      disableFederation := argparse.flagArg cl.disable_federation DefaultDisableFederation
      disableRocksDBRefresh :=
        argparse.flagArg cl.disable_rocksdb_refresh DefaultDisableRockDBRefresh
      disableResolve := argparse.flagArg cl.disable_resolve DefaultDisableRockDBRefresh
      disableBlockingAndFiltering :=
        argparse.flagArg cl.disable_blocking_and_filtering DefaultDisableBlockingAndFiltering
      disableStartNotifier := argparse.flagArg cl.disable_start_notifier DisableStartNotifier
      disableStartJSONRPC := argparse.flagArg cl.disable_start_jsonrpc DisableStartJSONRPC
      text := argparse.stringArg cl.text ""
      name := argparse.stringArg cl.name ""
      claimType := argparse.stringArg cl.claim_type ""
      id := argparse.stringArg cl.id ""
      author := argparse.stringArg cl.author ""
      title := argparse.stringArg cl.title ""
      description := argparse.stringArg cl.description ""
      channelId := argparse.stringArg cl.channel_id ""
      channelIds := cl.channel_ids }

/-- How a call of `ParseArgs` ends. -/
inductive Outcome where
  /-- A run-time panic. -/
  | panicked
  /-- The exit through `log.Fatalln(parser.Usage(err))`. -/
  | exitUsage (err : ParseError)
  /-- The exit through `log.Fatal(msg)`. -/
  | exitFatal (msg : String)
  /-- The statement `return args`. -/
  | returned (args : Args)
  deriving DecidableEq, Repr

/-- The `Args` that a call returned, if it returned. -/
def Outcome.args? : Outcome → Option Args
  | .returned args => some args
  | _ => none

/-- The struct literal `args := &Args{...}` of `ParseArgs`. -/
def ParseArgs.literal (p : Parsed) (jsonRPCPort : Int) (banner : Option String) : Args :=
  { CmdType := SearchCmd
    Host := p.host
    Port := p.port
    DBPath := p.dbPath
    Chain := some p.chain
    EsHost := p.esHost
    EsPort := p.esPort
    PrometheusPort := p.prometheusPort
    NotifierPort := p.notifierPort
    JSONRPCPort := jsonRPCPort
    JSONRPCHTTPPort := p.jsonRPCHTTPPort
    MaxSessions := p.maxSessions
    SessionTimeout := p.sessionTimeout
    EsIndex := p.esIndex
    RefreshDelta := p.refreshDelta
    CacheTTL := p.cacheTTL
    PeerFile := p.peerFile
    Banner := banner
    Country := p.country
    BlockingChannelIds := p.blockingChannelIds
    FilteringChannelIds := p.filteringChannelIds
    GenesisHash := ""
    ServerVersion := HUB_PROTOCOL_VERSION
    ProtocolMin := PROTOCOL_MIN
    ProtocolMax := PROTOCOL_MAX
    ServerDescription := p.serverDescription
    PaymentAddress := p.paymentAddress
    DonationAddress := p.donationAddress
    DailyFee := p.dailyFee
    Debug := p.debug
    DisableEs := p.disableEs
    DisableLoadPeers := p.disableLoadPeers
    DisableStartPrometheus := p.disableStartPrometheus
    DisableStartUDP := p.disableStartUdp
    DisableWritePeers := p.disableWritePeers
    DisableFederation := p.disableFederation
    DisableRocksDBRefresh := p.disableRocksDBRefresh
    DisableResolve := p.disableResolve
    DisableBlockingAndFiltering := p.disableBlockingAndFiltering
    DisableStartNotifier := p.disableStartNotifier
    DisableStartJSONRPC := p.disableStartJSONRPC }

/-- The override of `EsHost` by the environment variable `ELASTIC_HOST`. -/
def ParseArgs.overrideEsHost (environment : GoMap) (args : Args) : Args :=
  match environment "ELASTIC_HOST" with
  | some esHost => { args with EsHost := esHost }
  | none => args

/-- The normalisation of `EsHost`: a host that does not start with "http" gets the
prefix "http://". -/
def ParseArgs.normalizeEsHost (args : Args) : Args :=
  if !strings.HasPrefix args.EsHost "http" then
    { args with EsHost := "http://" ++ args.EsHost }
  else args

/-- The override of `EsPort` by the environment variable `ELASTIC_PORT`. -/
def ParseArgs.overrideEsPort (environment : GoMap) (args : Args) : Args :=
  match environment "ELASTIC_PORT" with
  | some esPort => { args with EsPort := esPort }
  | none => args

/-- The override of `PrometheusPort` by the environment variable
`GOHUB_PROMETHEUS_PORT`. -/
def ParseArgs.overridePrometheusPort (environment : GoMap) (args : Args) : Args :=
  match environment "GOHUB_PROMETHEUS_PORT" with
  | some prometheusPort => { args with PrometheusPort := prometheusPort }
  | none => args

/-- The four statements of `ParseArgs` between the struct literal and the check of the
channel options, in the order of the source. -/
def ParseArgs.overrides (environment : GoMap) (args : Args) : Args :=
  ParseArgs.overridePrometheusPort environment
    (ParseArgs.overrideEsPort environment
      (ParseArgs.normalizeEsHost (ParseArgs.overrideEsHost environment args)))

/-- The choice of `CmdType` from the sub-command that happened. -/
def ParseArgs.cmdType (p : Parsed) (args : Args) : Args :=
  if p.serveCmd then { args with CmdType := ServeCmd }
  else if p.searchCmd then { args with CmdType := SearchCmd }
  else if p.dbCmd then { args with CmdType := DBCmd }
  else args

/-- The writes of `ParseArgs` to the search request, in the order of the source. -/
def ParseArgs.fill (p : Parsed) (searchRequest : pb.SearchRequest) : pb.SearchRequest :=
  let searchRequest :=
    if p.text ≠ "" then { searchRequest with Text := p.text } else searchRequest
  let searchRequest :=
    if p.name ≠ "" then { searchRequest with ClaimName := p.name } else searchRequest
  let searchRequest :=
    if p.claimType ≠ "" then { searchRequest with ClaimType := [p.claimType] }
    else searchRequest
  let searchRequest :=
    if p.id ≠ "" then
      { searchRequest with ClaimId := some { Invert := false, Value := [p.id] } }
    else searchRequest
  let searchRequest :=
    if p.author ≠ "" then { searchRequest with Author := p.author } else searchRequest
  let searchRequest :=
    if p.title ≠ "" then { searchRequest with Title := p.title } else searchRequest
  let searchRequest :=
    if p.description ≠ "" then { searchRequest with Description := p.description }
    else searchRequest
  let searchRequest :=
    if p.channelId ≠ "" then
      { searchRequest with ChannelId := some { Invert := false, Value := [p.channelId] } }
    else searchRequest
  if p.channelIds.length > 0 then
    { searchRequest with ChannelId := some { Invert := false, Value := p.channelIds } }
  else searchRequest

/-- ParseArgs parses the command line arguments when started the hub server. The process
environment `environ`, the file system `readFile` and the command line `cl` are explicit;
the result is how the call ends together with the search request as the call leaves it. -/
def ParseArgs (environ : List String) (readFile : String → Option String)
    (cl : CommandLine) (searchRequest : pb.SearchRequest) : Outcome × pb.SearchRequest :=
  match GetEnvironmentStandard environ with
  | none => (.panicked, searchRequest)
  | some environment =>
    match argparse cl with
    | .error err => (.exitUsage err, searchRequest)
    | .ok p =>
      let jsonRPCPort :=
        if p.jsonRPCPort = 0 ∧ p.jsonRPCHTTPPort = 0 then DefaultJSONRPCPort
        else p.jsonRPCPort
      let banner := loadBanner readFile p.bannerFile HUB_PROTOCOL_VERSION
      let args := ParseArgs.overrides environment (ParseArgs.literal p jsonRPCPort banner)
      if p.channelIds.length > 0 ∧ p.channelId ≠ "" then
        (.exitFatal "Cannot specify both channel_id and channel_ids", searchRequest)
      else
        (.returned (ParseArgs.cmdType p args), ParseArgs.fill p searchRequest)

/-- A search request with every field at its zero value. -/
def emptySearchRequest : pb.SearchRequest :=
  { Text := "", ClaimName := "", ClaimType := [], ClaimId := none, Author := "",
    Title := "", Description := "", ChannelId := none }

/-- A file system without any readable file. -/
def noFile : String → Option String := fun _ => none

/-- The host that `ParseArgs.normalizeEsHost` leaves in `EsHost` when it finds the host
`h` there. -/
def normalizeHost (h : String) : String :=
  if strings.HasPrefix h "http" then h else "http://" ++ h

end server

/-! ## `package pb`: `hub_grpc.pb.go` -/

namespace pb

/-- Modelled from the spec: the message `EmptyMessage` is declared in `hub.pb.go`, which
is not among the sources. It is the request of `GetServerHeight`, `Ping`, `Version` and
`Features`, which the spec lists as `GetServerHeight()`, `Ping()`, `Version()`,
`Features()`, calls without an argument: a message with no field. -/
structure EmptyMessage where
  deriving DecidableEq, Repr

/-- The wrapper message `wrapperspb.UInt64Value`: one field `Value` of type `uint64`. -/
structure UInt64Value where
  Value : Nat
  inRange : Value < 2 ^ 64
  deriving DecidableEq

/-- The wrapper message `wrapperspb.StringValue`: one field `Value` of type `string`. -/
structure StringValue where
  Value : String
  deriving DecidableEq, Repr

/-- The types that the generated code names and that are declared elsewhere: the four
remaining messages of `hub.pb.go`, `context.Context`, `grpc.CallOption`, and the state of
the transport under a `grpc.ServerStream`. -/
structure Types where
  Context : Type
  CallOption : Type
  BlockRequest : Type
  Outputs : Type
  BlockOutput : Type
  BlockHeaderOutput : Type
  Transport : Type

/-- The message types that occur in the service. -/
inductive MessageType where
  | BlockRequest
  | SearchRequest
  | EmptyMessage
  | Outputs
  | BlockOutput
  | BlockHeaderOutput
  | UInt64Value
  | StringValue
  deriving DecidableEq, Repr

/-- The messages of a given type. -/
def Message (T : Types) : MessageType → Type
  | .BlockRequest => T.BlockRequest
  | .SearchRequest => SearchRequest
  | .EmptyMessage => EmptyMessage
  | .Outputs => T.Outputs
  | .BlockOutput => T.BlockOutput
  | .BlockHeaderOutput => T.BlockHeaderOutput
  | .UInt64Value => UInt64Value
  | .StringValue => StringValue

/-- A non-nil value of type `interface{}` that holds a message: its dynamic type and the
message. -/
def Any (T : Types) : Type := (t : MessageType) × Message T t

/-- The status codes of the package `codes`. -/
inductive Code where
  | OK
  | Canceled
  | Unknown
  | InvalidArgument
  | DeadlineExceeded
  | NotFound
  | AlreadyExists
  | PermissionDenied
  | ResourceExhausted
  | FailedPrecondition
  | Aborted
  | OutOfRange
  | Unimplemented
  | Internal
  | Unavailable
  | DataLoss
  | Unauthenticated
  deriving DecidableEq, Repr

/-- A non-nil `error`: a gRPC status with its code and message. -/
structure Status where
  code : Code
  message : String
  deriving DecidableEq, Repr

/-- The call `status.Errorf(c, format)` without arguments, on a format without verbs. -/
def status.Errorf (c : Code) (format : String) : Status :=
  { code := c, message := format }

/-- The outcome of a call with the results `(interface{}, error)`: a panic, or the two
returned values, each of which may be nil. -/
inductive Reply (T : Types) where
  | panicked
  | returned (resp : Option (Any T)) (err : Option Status)

/-- The results `(*M, error)` of a server method, as the results `(interface{}, error)`
of its handler. A nil `*M` is represented by `none`; in Go the interface value that wraps
a nil pointer is itself not nil, a difference that `Reply` does not record. -/
def Reply.ofResults {T : Types} (t : MessageType) (r : Option (Message T t) × Option Status) :
    Reply T :=
  .returned (r.1.map (fun m => ⟨t, m⟩)) r.2

/-- The interface `grpc.ClientConnInterface`, with the method `Invoke`: the call sends
`args` to `method` and, when it returns no error, has decoded the reply into `reply`,
a message of the type the caller allocated. -/
structure ClientConnInterface (T : Types) where
  Invoke : T.Context → String → Any T → (t : MessageType) → List T.CallOption →
    Except Status (Message T t)

/-- The struct `hubClient`. -/
structure hubClient (T : Types) where
  cc : ClientConnInterface T

/-- The body shared by the unary methods of `hubClient`: `out := new(M)`, the call of
`Invoke`, and the return of `(nil, err)` or `(out, nil)`. -/
def hubClient.invoke {T : Types} (c : hubClient T) (ctx : T.Context) (method : String)
    (req : Any T) (t : MessageType) (opts : List T.CallOption) :
    Option (Message T t) × Option Status :=
  match c.cc.Invoke ctx method req t opts with
  | .error err => (none, some err)
  | .ok out => (some out, none)

def hubClient.Search {T : Types} (c : hubClient T) (ctx : T.Context) (req : SearchRequest)
    (opts : List T.CallOption) : Option T.Outputs × Option Status :=
  c.invoke ctx "/pb.Hub/Search" ⟨.SearchRequest, req⟩ .Outputs opts

def hubClient.GetBlock {T : Types} (c : hubClient T) (ctx : T.Context) (req : T.BlockRequest)
    (opts : List T.CallOption) : Option T.BlockOutput × Option Status :=
  c.invoke ctx "/pb.Hub/GetBlock" ⟨.BlockRequest, req⟩ .BlockOutput opts

def hubClient.GetBlockHeader {T : Types} (c : hubClient T) (ctx : T.Context)
    (req : T.BlockRequest) (opts : List T.CallOption) :
    Option T.BlockHeaderOutput × Option Status :=
  c.invoke ctx "/pb.Hub/GetBlockHeader" ⟨.BlockRequest, req⟩ .BlockHeaderOutput opts

def hubClient.GetServerHeight {T : Types} (c : hubClient T) (ctx : T.Context)
    (req : EmptyMessage) (opts : List T.CallOption) : Option UInt64Value × Option Status :=
  c.invoke ctx "/pb.Hub/GetServerHeight" ⟨.EmptyMessage, req⟩ .UInt64Value opts

def hubClient.Ping {T : Types} (c : hubClient T) (ctx : T.Context) (req : EmptyMessage)
    (opts : List T.CallOption) : Option StringValue × Option Status :=
  c.invoke ctx "/pb.Hub/Ping" ⟨.EmptyMessage, req⟩ .StringValue opts

def hubClient.Version {T : Types} (c : hubClient T) (ctx : T.Context) (req : EmptyMessage)
    (opts : List T.CallOption) : Option StringValue × Option Status :=
  c.invoke ctx "/pb.Hub/Version" ⟨.EmptyMessage, req⟩ .StringValue opts

def hubClient.Features {T : Types} (c : hubClient T) (ctx : T.Context) (req : EmptyMessage)
    (opts : List T.CallOption) : Option StringValue × Option Status :=
  c.invoke ctx "/pb.Hub/Features" ⟨.EmptyMessage, req⟩ .StringValue opts

def hubClient.Broadcast {T : Types} (c : hubClient T) (ctx : T.Context) (req : EmptyMessage)
    (opts : List T.CallOption) : Option UInt64Value × Option Status :=
  c.invoke ctx "/pb.Hub/Broadcast" ⟨.EmptyMessage, req⟩ .UInt64Value opts

/-- The interface `grpc.ServerStream`, with its two message methods, over the state of
the transport: `RecvMsg` decodes the next message into a message of the type the caller
allocated or returns an error, `SendMsg` returns an error or nil. -/
structure ServerStream (T : Types) where
  RecvMsg : (t : MessageType) → T.Transport → Except Status (Message T t) × T.Transport
  SendMsg : Any T → T.Transport → Option Status × T.Transport

/-- The struct `hubSubscribeHeadersServer`, the implementation of the interface
`Hub_SubscribeHeadersServer`. -/
structure hubSubscribeHeadersServer (T : Types) where
  ServerStream : ServerStream T

/-- The method `Send` of `hubSubscribeHeadersServer`. -/
def hubSubscribeHeadersServer.Send {T : Types} (x : hubSubscribeHeadersServer T)
    (m : T.BlockHeaderOutput) : T.Transport → Option Status × T.Transport :=
  x.ServerStream.SendMsg ⟨.BlockHeaderOutput, m⟩

/-- The struct `hubGetHeadersServer`, the implementation of the interface
`Hub_GetHeadersServer`. -/
structure hubGetHeadersServer (T : Types) where
  ServerStream : ServerStream T

/-- The method `Send` of `hubGetHeadersServer`. -/
def hubGetHeadersServer.Send {T : Types} (x : hubGetHeadersServer T)
    (m : T.BlockHeaderOutput) : T.Transport → Option Status × T.Transport :=
  x.ServerStream.SendMsg ⟨.BlockHeaderOutput, m⟩

/-- HubServer is the server API for Hub service. A streaming method takes the state of
the transport and returns it with its error. -/
structure HubServer (T : Types) where
  SubscribeHeaders : T.BlockRequest → hubSubscribeHeadersServer T → T.Transport →
    Option Status × T.Transport
  Search : T.Context → SearchRequest → Option T.Outputs × Option Status
  GetBlock : T.Context → T.BlockRequest → Option T.BlockOutput × Option Status
  GetBlockHeader : T.Context → T.BlockRequest → Option T.BlockHeaderOutput × Option Status
  GetServerHeight : T.Context → EmptyMessage → Option UInt64Value × Option Status
  GetHeaders : T.BlockRequest → hubGetHeadersServer T → T.Transport →
    Option Status × T.Transport
  Ping : T.Context → EmptyMessage → Option StringValue × Option Status
  Version : T.Context → EmptyMessage → Option StringValue × Option Status
  Features : T.Context → EmptyMessage → Option StringValue × Option Status
  Broadcast : T.Context → EmptyMessage → Option UInt64Value × Option Status

/-- UnimplementedHubServer must be embedded to have forward compatible implementations. -/
def UnimplementedHubServer (T : Types) : HubServer T where
  SubscribeHeaders := fun _ _ transport =>
    (some (status.Errorf .Unimplemented "method SubscribeHeaders not implemented"), transport)
  Search := fun _ _ =>
    (none, some (status.Errorf .Unimplemented "method Search not implemented"))
  GetBlock := fun _ _ =>
    (none, some (status.Errorf .Unimplemented "method GetBlock not implemented"))
  GetBlockHeader := fun _ _ =>
    (none, some (status.Errorf .Unimplemented "method GetBlockHeader not implemented"))
  GetServerHeight := fun _ _ =>
    (none, some (status.Errorf .Unimplemented "method GetServerHeight not implemented"))
  GetHeaders := fun _ _ transport =>
    (some (status.Errorf .Unimplemented "method GetHeaders not implemented"), transport)
  Ping := fun _ _ =>
    (none, some (status.Errorf .Unimplemented "method Ping not implemented"))
  Version := fun _ _ =>
    (none, some (status.Errorf .Unimplemented "method Version not implemented"))
  Features := fun _ _ =>
    (none, some (status.Errorf .Unimplemented "method Features not implemented"))
  Broadcast := fun _ _ =>
    (none, some (status.Errorf .Unimplemented "method Broadcast not implemented"))

/-- The struct `grpc.UnaryServerInfo`. -/
structure UnaryServerInfo (T : Types) where
  Server : HubServer T
  FullMethod : String

/-- The type `grpc.UnaryHandler`. -/
def UnaryHandler (T : Types) : Type := T.Context → Any T → Reply T

/-- The type `grpc.UnaryServerInterceptor`. -/
def UnaryServerInterceptor (T : Types) : Type :=
  T.Context → Any T → UnaryServerInfo T → UnaryHandler T → Reply T

/-- The argument `dec` of a method handler: asked to decode the request into a message of
the type the handler allocated, it returns an error or has filled the message. -/
def Decoder (T : Types) : Type := (t : MessageType) → Except Status (Message T t)

/-- The type of the field `Handler` of a `grpc.MethodDesc`, for a server that is a
`HubServer`. -/
def MethodHandler (T : Types) : Type :=
  HubServer T → T.Context → Decoder T → Option (UnaryServerInterceptor T) → Reply T

/-- The type `grpc.StreamHandler`, for a server that is a `HubServer`. -/
def StreamHandler (T : Types) : Type :=
  HubServer T → ServerStream T → T.Transport → Option Status × T.Transport

/-- The body shared by the eight generated method handlers: `in := new(M)`, the call of
`dec`, the direct call of the server method `call` when there is no interceptor, and
otherwise the call of the interceptor with the handler closure, which asserts that its
request is a `*M`. -/
def unaryHandler {T : Types} (tin tout : MessageType) (fullMethod : String)
    (call : HubServer T → T.Context → Message T tin →
      Option (Message T tout) × Option Status) :
    MethodHandler T :=
  fun srv ctx dec interceptor =>
    match dec tin with
    | .error err => .returned none (some err)
    | .ok req =>
      match interceptor with
      | none => Reply.ofResults tout (call srv ctx req)
      | some intercept =>
        let info : UnaryServerInfo T := { Server := srv, FullMethod := fullMethod }
        let handler : UnaryHandler T := fun ctx req =>
          if h : req.1 = tin then Reply.ofResults tout (call srv ctx (h ▸ req.2))
          else .panicked
        intercept ctx ⟨tin, req⟩ info handler

def _Hub_SubscribeHeaders_Handler {T : Types} : StreamHandler T :=
  fun srv stream transport =>
    match stream.RecvMsg .BlockRequest transport with
    | (.error err, transport) => (some err, transport)
    | (.ok m, transport) => srv.SubscribeHeaders m { ServerStream := stream } transport

def _Hub_Search_Handler {T : Types} : MethodHandler T :=
  unaryHandler .SearchRequest .Outputs "/pb.Hub/Search" (fun srv => srv.Search)

def _Hub_GetBlock_Handler {T : Types} : MethodHandler T :=
  unaryHandler .BlockRequest .BlockOutput "/pb.Hub/GetBlock" (fun srv => srv.GetBlock)

def _Hub_GetBlockHeader_Handler {T : Types} : MethodHandler T :=
  unaryHandler .BlockRequest .BlockHeaderOutput "/pb.Hub/GetBlockHeader"
    (fun srv => srv.GetBlockHeader)

def _Hub_GetServerHeight_Handler {T : Types} : MethodHandler T :=
  unaryHandler .EmptyMessage .UInt64Value "/pb.Hub/GetServerHeight"
    (fun srv => srv.GetServerHeight)

def _Hub_GetHeaders_Handler {T : Types} : StreamHandler T :=
  fun srv stream transport =>
    match stream.RecvMsg .BlockRequest transport with
    | (.error err, transport) => (some err, transport)
    | (.ok m, transport) => srv.GetHeaders m { ServerStream := stream } transport

def _Hub_Ping_Handler {T : Types} : MethodHandler T :=
  unaryHandler .EmptyMessage .StringValue "/pb.Hub/Ping" (fun srv => srv.Ping)

def _Hub_Version_Handler {T : Types} : MethodHandler T :=
  unaryHandler .EmptyMessage .StringValue "/pb.Hub/Version" (fun srv => srv.Version)

def _Hub_Features_Handler {T : Types} : MethodHandler T :=
  unaryHandler .EmptyMessage .StringValue "/pb.Hub/Features" (fun srv => srv.Features)

def _Hub_Broadcast_Handler {T : Types} : MethodHandler T :=
  unaryHandler .EmptyMessage .UInt64Value "/pb.Hub/Broadcast" (fun srv => srv.Broadcast)

/-- The struct `grpc.MethodDesc`. -/
structure MethodDesc (T : Types) where
  MethodName : String
  Handler : MethodHandler T

/-- The struct `grpc.StreamDesc`; a field left out of a literal has the value `false`. -/
structure StreamDesc (T : Types) where
  StreamName : String
  Handler : StreamHandler T
  ServerStreams : Bool := false
  ClientStreams : Bool := false

/-- The struct `grpc.ServiceDesc`, without the field `HandlerType`. -/
structure ServiceDesc (T : Types) where
  ServiceName : String
  Methods : List (MethodDesc T)
  Streams : List (StreamDesc T)
  Metadata : String

/-- Hub_ServiceDesc is the grpc.ServiceDesc for Hub service. -/
def Hub_ServiceDesc (T : Types) : ServiceDesc T where
  ServiceName := "pb.Hub"
  Methods := [
    { MethodName := "Search", Handler := _Hub_Search_Handler },
    { MethodName := "GetBlock", Handler := _Hub_GetBlock_Handler },
    { MethodName := "GetBlockHeader", Handler := _Hub_GetBlockHeader_Handler },
    { MethodName := "GetServerHeight", Handler := _Hub_GetServerHeight_Handler },
    { MethodName := "Ping", Handler := _Hub_Ping_Handler },
    { MethodName := "Version", Handler := _Hub_Version_Handler },
    { MethodName := "Features", Handler := _Hub_Features_Handler },
    { MethodName := "Broadcast", Handler := _Hub_Broadcast_Handler } ]
  Streams := [
    { StreamName := "SubscribeHeaders", Handler := _Hub_SubscribeHeaders_Handler,
      ServerStreams := true },
    { StreamName := "GetHeaders", Handler := _Hub_GetHeaders_Handler,
      ServerStreams := true } ]
  Metadata := "hub.proto"

/-- A choice of the types declared elsewhere in which each has exactly one value. -/
def unitTypes : Types :=
  { Context := Unit, CallOption := Unit, BlockRequest := Unit, Outputs := Unit,
    BlockOutput := Unit, BlockHeaderOutput := Unit, Transport := Unit }

/-- A server that answers `Broadcast` with the height 7 and implements nothing else. -/
def heightServer : HubServer unitTypes :=
  { UnimplementedHubServer unitTypes with
    Broadcast := fun _ _ => (some { Value := 7, inRange := by decide }, none) }

/-- A decoder for a request that is an `EmptyMessage`. -/
def emptyDecoder : Decoder unitTypes
  | .EmptyMessage => .ok {}
  | _ => .error { code := .Internal, message := "unexpected message type" }

/-- A client whose connection is down: every `Invoke` returns an error. -/
def offlineClient : hubClient unitTypes :=
  { cc := { Invoke := fun _ _ _ _ _ => .error { code := .Unavailable, message := "offline" } } }

end pb

/-! ## Theorems about `args.go` -/

namespace server

/-- After a successful parse, the values that the later steps of `ParseArgs` read are the
ones computed from the command line. -/
theorem argparse_ok_fields (cl : CommandLine) (p : Parsed) (h : argparse cl = .ok p) :
    p.channelId = argparse.stringArg cl.channel_id "" ∧ p.channelIds = cl.channel_ids ∧
    p.bannerFile = argparse.stringArg cl.bannerfile DefaultBannerFile ∧
    argparse.intArg "json-rpc-port" (some validatePort) cl.json_rpc_port DefaultJSONRPCPort
      = .ok p.jsonRPCPort ∧
    argparse.intArg "json-rpc-http-port" (some validatePort) cl.json_rpc_http_port
      DefaultJSONRPCHTTPPort = .ok p.jsonRPCHTTPPort := by
  unfold argparse at h
  split at h
  · cases h
  · simp only [bind, Except.bind, pure, Except.pure] at h
    repeat (split at h; · cases h)
    cases h
    simp_all

/-- C1: for every command line that gives `--channel_id` a non-empty value and
`--channel_ids` at least one value, in every environment and file system, `ParseArgs`
leaves the search request as it was passed and returns no `Args`; and whenever the
environment is read and the parser accepts the command line, the call ends in the fatal
error "Cannot specify both channel_id and channel_ids". -/
theorem ParseArgs_rejects_channel_id_with_channel_ids (environ : List String)
    (readFile : String → Option String) (cl : CommandLine)
    (searchRequest : pb.SearchRequest) (v : String)
    (hid : cl.channel_id = some v) (hv : v ≠ "") (hids : cl.channel_ids ≠ []) :
    (ParseArgs environ readFile cl searchRequest).2 = searchRequest ∧
    (ParseArgs environ readFile cl searchRequest).1.args? = none ∧
    (∀ environment p, GetEnvironmentStandard environ = some environment →
      argparse cl = .ok p →
      (ParseArgs environ readFile cl searchRequest).1
        = .exitFatal "Cannot specify both channel_id and channel_ids") := by
  have key : ∀ p, argparse cl = .ok p → (p.channelIds.length > 0 ∧ p.channelId ≠ "") := by
    intro p hp
    obtain ⟨h1, h2, -⟩ := argparse_ok_fields cl p hp
    rw [h1, h2, hid]
    exact ⟨List.length_pos.mpr hids, by simpa [argparse.stringArg] using hv⟩
  unfold ParseArgs
  cases henv : GetEnvironmentStandard environ with
  | none => simp [Outcome.args?]
  | some environment =>
    cases hp : argparse cl with
    | error e => simp [Outcome.args?]
    | ok p =>
      have hk := key p hp
      simp [Outcome.args?, hk]

/-- Witness of C1: the command line `serve --channel_id a --channel_ids b --channel_ids c`
in the environment `HOME=/root` is parsed, and ends in the fatal error with the search
request untouched. -/
theorem ParseArgs_rejects_channel_id_with_channel_ids_witness :
    (∃ p, argparse { serve := true, channel_id := some "a", channel_ids := ["b", "c"] }
      = .ok p) ∧
    (ParseArgs ["HOME=/root"] noFile
      { serve := true, channel_id := some "a", channel_ids := ["b", "c"] }
      emptySearchRequest).2 = emptySearchRequest ∧
    (ParseArgs ["HOME=/root"] noFile
      { serve := true, channel_id := some "a", channel_ids := ["b", "c"] }
      emptySearchRequest).1 = .exitFatal "Cannot specify both channel_id and channel_ids" :=
  have h := ParseArgs_rejects_channel_id_with_channel_ids ["HOME=/root"] noFile
    { serve := true, channel_id := some "a", channel_ids := ["b", "c"] }
    emptySearchRequest "a" rfl (by decide) (by decide)
  ⟨⟨_, rfl⟩, h.1, by decide⟩

/-- C2, the code at two command lines. With `serve --json-rpc-http-port 8080`, where one
of the two JSON-RPC ports is given explicitly, the returned `JSONRPCPort` is still the
default 50001, set by the `Default` of the option `--json-rpc-port`; with
`serve --json-rpc-port 0 --json-rpc-http-port 0`, where both are given explicitly, the
returned `JSONRPCPort` is again 50001 and not the given 0. -/
theorem ParseArgs_JSONRPCPort_defaulted_when_specified :
    ((ParseArgs [] noFile { serve := true, json_rpc_http_port := some "8080" }
        emptySearchRequest).1.args?.map
      (fun args => (args.JSONRPCPort, args.JSONRPCHTTPPort))
      = some (DefaultJSONRPCPort, 8080)) ∧
    ((ParseArgs [] noFile
        { serve := true, json_rpc_port := some "0", json_rpc_http_port := some "0" }
        emptySearchRequest).1.args?.map
      (fun args => (args.JSONRPCPort, args.JSONRPCHTTPPort))
      = some (DefaultJSONRPCPort, 0)) ∧
    DefaultJSONRPCPort = 50001 := by
  refine ⟨by decide, by decide, rfl⟩

/-- When the environment is read, the parser accepts the command line and the two channel
options are not both set, `ParseArgs` returns, with the values computed step by step. -/
theorem ParseArgs_returns (environ : List String) (readFile : String → Option String)
    (cl : CommandLine) (searchRequest : pb.SearchRequest) (environment : GoMap) (p : Parsed)
    (henv : GetEnvironmentStandard environ = some environment) (hp : argparse cl = .ok p)
    (hno : ¬ (p.channelIds.length > 0 ∧ p.channelId ≠ "")) :
    ParseArgs environ readFile cl searchRequest =
      (.returned (ParseArgs.cmdType p (ParseArgs.overrides environment
          (ParseArgs.literal p
            (if p.jsonRPCPort = 0 ∧ p.jsonRPCHTTPPort = 0 then DefaultJSONRPCPort
              else p.jsonRPCPort)
            (loadBanner readFile p.bannerFile HUB_PROTOCOL_VERSION)))),
        ParseArgs.fill p searchRequest) := by
  simp only [ParseArgs, henv, hp, if_neg hno]

theorem cmdType_Banner (p : Parsed) (args : Args) :
    (ParseArgs.cmdType p args).Banner = args.Banner := by
  unfold ParseArgs.cmdType
  repeat' split
  all_goals rfl

theorem overrides_Banner (environment : GoMap) (args : Args) :
    (ParseArgs.overrides environment args).Banner = args.Banner := by
  unfold ParseArgs.overrides ParseArgs.overridePrometheusPort ParseArgs.overrideEsPort
    ParseArgs.normalizeEsHost ParseArgs.overrideEsHost
  repeat' split
  all_goals rfl

/-- C3: for every file system, banner file path and server version `v`, `loadBanner`
returns a non-nil string, which is the contents of the file when the file can be read and
"You are connected to an " ++ v ++ " server." when it cannot; for the version that
`ParseArgs` passes the fallback is "You are connected to an 0.107.0 server.", and every
call of `ParseArgs` that reaches its end returns `Args` whose `Banner` is the result of
`loadBanner` on the parsed `--bannerfile` with that version. -/
theorem loadBanner_contents_or_fallback (readFile : String → Option String)
    (bannerFile v : String) :
    (loadBanner readFile bannerFile v).isSome = true ∧
    (∀ data, readFile bannerFile = some data → loadBanner readFile bannerFile v = some data) ∧
    (readFile bannerFile = none →
      loadBanner readFile bannerFile v = some ("You are connected to an " ++ v ++ " server.")) ∧
    (readFile bannerFile = none →
      loadBanner readFile bannerFile HUB_PROTOCOL_VERSION
        = some "You are connected to an 0.107.0 server.") ∧
    (∀ environ environment cl p searchRequest,
      GetEnvironmentStandard environ = some environment → argparse cl = .ok p →
      ¬ (p.channelIds.length > 0 ∧ p.channelId ≠ "") →
      ∃ args, (ParseArgs environ readFile cl searchRequest).1 = .returned args ∧
        args.Banner = loadBanner readFile p.bannerFile HUB_PROTOCOL_VERSION) := by
  refine ⟨rfl, ?_, ?_, ?_, ?_⟩
  · intro data h; simp [loadBanner, h]
  · intro h; simp [loadBanner, h]
  · intro h; simp only [loadBanner, h]; decide
  · intro environ environment cl p req henv hp hno
    rw [ParseArgs_returns environ readFile cl req environment p henv hp hno]
    exact ⟨_, rfl, by rw [cmdType_Banner, overrides_Banner]; rfl⟩

/-- Witness of C3: with the one readable file `/etc/banner` holding "hello", the banner
for that path is "hello", and the banner for the path `/missing` and the version "1.2" is
the generated message. -/
theorem loadBanner_contents_or_fallback_witness :
    loadBanner (fun path => if path = "/etc/banner" then some "hello" else none)
      "/etc/banner" "1.2" = some "hello" ∧
    loadBanner (fun path => if path = "/etc/banner" then some "hello" else none)
      "/missing" "1.2" = some "You are connected to an 1.2 server." :=
  ⟨(loadBanner_contents_or_fallback _ "/etc/banner" "1.2").2.1 "hello" (by decide),
   (loadBanner_contents_or_fallback _ "/missing" "1.2").2.2.1 (by decide)⟩

/-- With a `getkeyval` that always returns, the loop of `GetEnvironment` is a left fold
of map assignments. -/
theorem GetEnvironment_loop_eq_foldl (f : String → String × String) (data : List String)
    (items : GoMap) :
    GetEnvironment.loop (fun item => some (f item)) items data
      = some (data.foldl (fun m item => m.set (f item).1 (f item).2) items) := by
  induction data generalizing items with
  | nil => rfl
  | cons item rest ih => simp only [GetEnvironment.loop, List.foldl_cons]; exact ih _

theorem foldl_set_absent (f : String → String × String) (data : List String) (items : GoMap)
    (k : String) (h : ∀ item ∈ data, (f item).1 ≠ k) :
    data.foldl (fun m item => m.set (f item).1 (f item).2) items k = items k := by
  induction data generalizing items with
  | nil => rfl
  | cons item rest ih =>
    simp only [List.foldl_cons]
    rw [ih _ (fun i hi => h i (List.mem_cons_of_mem _ hi))]
    have : k ≠ (f item).1 := fun e => h item (List.mem_cons_self _ _) e.symm
    simp [GoMap.set, this]

theorem foldl_set_isSome (f : String → String × String) (data : List String) (items : GoMap)
    (k : String) :
    (data.foldl (fun m item => m.set (f item).1 (f item).2) items k).isSome = true ↔
      (items k).isSome = true ∨ ∃ item ∈ data, (f item).1 = k := by
  induction data generalizing items with
  | nil => simp
  | cons item rest ih =>
    simp only [List.foldl_cons]
    rw [ih]
    by_cases hk : k = (f item).1
    · subst hk; simp [GoMap.set]
    · have hk2 : ¬ (f item).1 = k := fun e => hk e.symm
      simp [GoMap.set, hk, hk2]

/-- On a list on whose items `getkeyval` returns what `f` returns, the loop of
`GetEnvironment` runs as it does for `f`. -/
theorem GetEnvironment_loop_congr (getkeyval : String → Option (String × String))
    (f : String → String × String) (data : List String) (items : GoMap)
    (h : ∀ item ∈ data, getkeyval item = some (f item)) :
    GetEnvironment.loop getkeyval items data
      = GetEnvironment.loop (fun item => some (f item)) items data := by
  induction data generalizing items with
  | nil => rfl
  | cons item rest ih =>
    simp only [GetEnvironment.loop, h item (List.mem_cons_self _ _)]
    exact ih _ (fun i hi => h i (List.mem_cons_of_mem _ hi))

/-- When `getkeyval` panics on an item of the list, the loop of `GetEnvironment` panics
and no map is returned. -/
theorem GetEnvironment_loop_panics (getkeyval : String → Option (String × String))
    (data : List String) (items : GoMap) (item : String) (hmem : item ∈ data)
    (hnone : getkeyval item = none) :
    GetEnvironment.loop getkeyval items data = none := by
  induction data generalizing items with
  | nil => cases hmem
  | cons first rest ih =>
    cases hfirst : getkeyval first with
    | none => simp [GetEnvironment.loop, hfirst]
    | some kv =>
      have hne : item ≠ first := fun e => by rw [e, hfirst] at hnone; cases hnone
      have hrest : item ∈ rest := by
        rcases List.mem_cons.mp hmem with e | e
        · exact absurd e hne
        · exact e
      simp only [GetEnvironment.loop, hfirst]
      exact ih _ hrest

/-- C7: for every list `data` and every function `getkeyval` that returns on each item of
`data`, `GetEnvironment` returns a map `m` such that a key is present in `m` exactly when
`getkeyval` yields it on some item of `data`; the value at a key is the value that
`getkeyval` yields on the last item of `data` having that key (an item after which no item
has the key); and for the empty list `m` is the empty map. -/
theorem GetEnvironment_last_entry_wins (data : List String)
    (getkeyval : String → Option (String × String))
    (hret : ∀ item ∈ data, (getkeyval item).isSome = true) :
    ∃ m, GetEnvironment data getkeyval = some m ∧
      (∀ k, (m k).isSome = true ↔
        ∃ item ∈ data, (getkeyval item).map Prod.fst = some k) ∧
      (∀ pre item post key val, data = pre ++ item :: post →
        getkeyval item = some (key, val) →
        (∀ later ∈ post, (getkeyval later).map Prod.fst ≠ some key) →
        m key = some val) ∧
      (data = [] → m = GoMap.empty) := by
  have hf : ∀ item ∈ data,
      getkeyval item = some ((fun i => (getkeyval i).getD ("", "")) item) := by
    intro item hitem
    obtain ⟨kv, h⟩ := Option.isSome_iff_exists.mp (hret item hitem)
    simp [h]
  have hm : GetEnvironment data getkeyval
      = some (data.foldl (fun m item => m.set ((getkeyval item).getD ("", "")).1
          ((getkeyval item).getD ("", "")).2) GoMap.empty) := by
    unfold GetEnvironment
    rw [GetEnvironment_loop_congr getkeyval _ data GoMap.empty hf]
    exact GetEnvironment_loop_eq_foldl _ data GoMap.empty
  refine ⟨_, hm, ?_, ?_, ?_⟩
  · intro k
    rw [foldl_set_isSome]
    simp only [GoMap.empty, Option.isSome_none, Bool.false_eq_true, false_or]
    constructor
    · rintro ⟨item, hitem, hk⟩
      refine ⟨item, hitem, ?_⟩
      rw [hf item hitem]
      simpa using hk
    · rintro ⟨item, hitem, h⟩
      refine ⟨item, hitem, ?_⟩
      rw [hf item hitem] at h
      simpa using h
  · intro pre item post key val hd hitem hpost
    subst hd
    have hpost2 : ∀ later ∈ post, ((getkeyval later).getD ("", "")).1 ≠ key := by
      intro later hlater hk
      apply hpost later hlater
      rw [hf later (by simp [hlater])]
      simpa using hk
    rw [List.foldl_append, List.foldl_cons,
      foldl_set_absent (fun i => (getkeyval i).getD ("", "")) post _ _ hpost2]
    simp [GoMap.set, hitem]
  · intro h; subst h; rfl

/-- Witness of C7: on the items "a=1", "b=2", "a=3" and the function that
`GetEnvironmentStandard` passes, which returns on each of them, the map holds "3" at "a"
(the later entry) and "2" at "b". -/
theorem GetEnvironment_last_entry_wins_witness :
    ∃ m, GetEnvironment ["a=1", "b=2", "a=3"] GetEnvironmentStandard.getkeyval = some m ∧
      m "a" = some "3" ∧ m "b" = some "2" :=
  match GetEnvironment_last_entry_wins ["a=1", "b=2", "a=3"]
    GetEnvironmentStandard.getkeyval (by decide) with
  | ⟨m, hm, _, hlast, _⟩ =>
    ⟨m, hm, hlast ["a=1", "b=2"] "a=3" [] "a" "3" rfl (by decide) (by decide),
      hlast ["a=1"] "b=2" ["a=3"] "b" "2" rfl (by decide) (by decide)⟩

/-- C8, the code at the environment with the single entry `LS_COLORS=rs=0:di=01;34`:
`strings.Split` cuts the entry at every '=', so the map holds "rs" at `LS_COLORS`, the
text between the first and the second '=', and not the whole value "rs=0:di=01;34". -/
theorem GetEnvironmentStandard_cuts_value_at_second_equals :
    strings.Split "LS_COLORS=rs=0:di=01;34" '=' = ["LS_COLORS", "rs", "0:di", "01;34"] ∧
    (GetEnvironmentStandard ["LS_COLORS=rs=0:di=01;34"]).map (fun m => m "LS_COLORS")
      = some (some "rs") ∧
    (GetEnvironmentStandard ["LS_COLORS=rs=0:di=01;34"]).map (fun m => m "LS_COLORS")
      ≠ some (some "rs=0:di=01;34") := by
  refine ⟨by decide, by decide, by decide⟩

/-- C9: for every command line that the parser rejects with an error `err`, in every
environment and file system, `ParseArgs` leaves the search request as it was passed and
returns no `Args`; and whenever the environment is read, the call ends in the exit with
the usage message for `err`. -/
theorem ParseArgs_exits_with_usage (environ : List String)
    (readFile : String → Option String) (cl : CommandLine)
    (searchRequest : pb.SearchRequest) (err : ParseError) (hrej : argparse cl = .error err) :
    (ParseArgs environ readFile cl searchRequest).2 = searchRequest ∧
    (ParseArgs environ readFile cl searchRequest).1.args? = none ∧
    (∀ environment, GetEnvironmentStandard environ = some environment →
      ParseArgs environ readFile cl searchRequest = (.exitUsage err, searchRequest)) := by
  unfold ParseArgs
  cases henv : GetEnvironmentStandard environ with
  | none => simp [Outcome.args?]
  | some environment => simp [Outcome.args?, hrej]

/-- Witness of C9: the command line `serve --json-rpc-port 70000`, whose port fails the
port validation, is rejected, and `ParseArgs` exits with the usage message. -/
theorem ParseArgs_exits_with_usage_witness :
    argparse { serve := true, json_rpc_port := some "70000" }
      = .error (.invalid "json-rpc-port" "70000") ∧
    ParseArgs ["HOME=/root"] noFile { serve := true, json_rpc_port := some "70000" }
      emptySearchRequest
      = (.exitUsage (.invalid "json-rpc-port" "70000"), emptySearchRequest) :=
  ⟨rfl,
   (ParseArgs_exits_with_usage ["HOME=/root"] noFile
      { serve := true, json_rpc_port := some "70000" } emptySearchRequest
      (.invalid "json-rpc-port" "70000") rfl).2.2 _ rfl⟩

/-- A command line on which the scanning of argparse fails (an unknown flag, a missing
value) is rejected. -/
theorem argparse_rejected (cl : CommandLine) (msg : String) (h : cl.rejected = some msg) :
    argparse cl = .error (.rejected msg) := by
  simp [argparse, h]

theorem intArg_invalid_port (flag raw : String) (dflt : Int)
    (h : validatePort [raw] = false) :
    argparse.intArg flag (some validatePort) (some raw) dflt = .error (.invalid flag raw) := by
  simp [argparse.intArg, h]

/-- A command line that gives one of the two JSON-RPC ports a value failing the port
validation is rejected. -/
theorem argparse_invalid_port (cl : CommandLine) (raw : String)
    (h : cl.json_rpc_port = some raw ∨ cl.json_rpc_http_port = some raw)
    (hv : validatePort [raw] = false) : ∃ err, argparse cl = .error err := by
  cases hp : argparse cl with
  | error e => exact ⟨e, rfl⟩
  | ok p =>
    obtain ⟨-, -, -, h1, h2⟩ := argparse_ok_fields cl p hp
    rcases h with h | h
    · rw [h, intArg_invalid_port _ _ _ hv] at h1; cases h1
    · rw [h, intArg_invalid_port _ _ _ hv] at h2; cases h2

/-- A value that is not the text of an integer (a malformed value) makes an integer
option fail. -/
theorem intArg_malformed (flag raw : String) (dflt : Int) (h : strconv.Atoi raw = none) :
    argparse.intArg flag none (some raw) dflt = .error (.invalid flag raw) := by
  simp [argparse.intArg, h]

/-- C11, as stated, fails: whatever the genesis hash, none of the nine feature flags
`DisableLoadPeers`, `DisableStartPrometheus`, `DisableStartUDP`, `DisableWritePeers`,
`DisableRocksDBRefresh`, `DisableResolve`, `DisableBlockingAndFiltering`,
`DisableStartNotifier`, `DisableStartJSONRPC` of the result of `MakeDefaultTestArgs` holds
the value of its default constant. -/
theorem MakeDefaultTestArgs_flags_differ_from_defaults :
    ¬ ∃ genesisHash : String,
      (MakeDefaultTestArgs genesisHash).DisableLoadPeers = DefaultDisableLoadPeers ∨
      (MakeDefaultTestArgs genesisHash).DisableStartPrometheus
        = DefaultDisableStartPrometheus ∨
      (MakeDefaultTestArgs genesisHash).DisableStartUDP = DefaultDisableStartUDP ∨
      (MakeDefaultTestArgs genesisHash).DisableWritePeers = DefaultDisableWritePeers ∨
      (MakeDefaultTestArgs genesisHash).DisableRocksDBRefresh = DefaultDisableRockDBRefresh ∨
      (MakeDefaultTestArgs genesisHash).DisableResolve = DefaultDisableResolve ∨
      (MakeDefaultTestArgs genesisHash).DisableBlockingAndFiltering
        = DefaultDisableBlockingAndFiltering ∨
      (MakeDefaultTestArgs genesisHash).DisableStartNotifier = DisableStartNotifier ∨
      (MakeDefaultTestArgs genesisHash).DisableStartJSONRPC = DisableStartJSONRPC := by
  rintro ⟨g, h⟩
  rcases h with h | h | h | h | h | h | h | h | h <;> exact Bool.noConfusion h

/-- C11, amended: `MakeDefaultTestArgs` returns `Args` with `CmdType` `ServeCmd`, in which
every field that is not a feature flag and has a default constant (host, the six ports, DB
path, Elasticsearch host, port and index, max sessions, session timeout, refresh delta,
cache TTL, peer file, country, server description, payment and donation address, daily
fee) holds that constant; of the feature flags `DisableFederation` holds its default, and
the nine others are `true`, switched off for testing. -/
theorem MakeDefaultTestArgs_defaults_with_features_disabled (genesisHash : String) :
    (MakeDefaultTestArgs genesisHash).CmdType = ServeCmd ∧
    (MakeDefaultTestArgs genesisHash).Host = DefaultHost ∧
    (MakeDefaultTestArgs genesisHash).Port = DefaultPort ∧
    (MakeDefaultTestArgs genesisHash).DBPath = DefaultDBPath ∧
    (MakeDefaultTestArgs genesisHash).EsHost = DefaultEsHost ∧
    (MakeDefaultTestArgs genesisHash).EsPort = DefaultEsPort ∧
    (MakeDefaultTestArgs genesisHash).EsIndex = DefaultEsIndex ∧
    (MakeDefaultTestArgs genesisHash).PrometheusPort = DefaultPrometheusPort ∧
    (MakeDefaultTestArgs genesisHash).NotifierPort = DefaultNotifierPort ∧
    (MakeDefaultTestArgs genesisHash).JSONRPCPort = DefaultJSONRPCPort ∧
    (MakeDefaultTestArgs genesisHash).JSONRPCHTTPPort = DefaultJSONRPCHTTPPort ∧
    (MakeDefaultTestArgs genesisHash).MaxSessions = DefaultMaxSessions ∧
    (MakeDefaultTestArgs genesisHash).SessionTimeout = DefaultSessionTimeout ∧
    (MakeDefaultTestArgs genesisHash).RefreshDelta = DefaultRefreshDelta ∧
    (MakeDefaultTestArgs genesisHash).CacheTTL = DefaultCacheTTL ∧
    (MakeDefaultTestArgs genesisHash).PeerFile = DefaultPeerFile ∧
    (MakeDefaultTestArgs genesisHash).Country = DefaultCountry ∧
    (MakeDefaultTestArgs genesisHash).ServerDescription = DefaultServerDescription ∧
    (MakeDefaultTestArgs genesisHash).PaymentAddress = DefaultPaymentAddress ∧
    (MakeDefaultTestArgs genesisHash).DonationAddress = DefaultDonationAddress ∧
    (MakeDefaultTestArgs genesisHash).DailyFee = DefaultDailyFee ∧
    (MakeDefaultTestArgs genesisHash).DisableFederation = DefaultDisableFederation ∧
    (MakeDefaultTestArgs genesisHash).DisableLoadPeers = true ∧
    (MakeDefaultTestArgs genesisHash).DisableStartPrometheus = true ∧
    (MakeDefaultTestArgs genesisHash).DisableStartUDP = true ∧
    (MakeDefaultTestArgs genesisHash).DisableWritePeers = true ∧
    (MakeDefaultTestArgs genesisHash).DisableRocksDBRefresh = true ∧
    (MakeDefaultTestArgs genesisHash).DisableResolve = true ∧
    (MakeDefaultTestArgs genesisHash).DisableBlockingAndFiltering = true ∧
    (MakeDefaultTestArgs genesisHash).DisableStartNotifier = true ∧
    (MakeDefaultTestArgs genesisHash).DisableStartJSONRPC = true := by
  refine ⟨rfl, rfl, rfl, rfl, rfl, rfl, rfl, rfl, rfl, rfl, rfl, rfl, rfl, rfl, rfl, rfl,
    rfl, rfl, rfl, rfl, rfl, rfl, rfl, rfl, rfl, rfl, rfl, rfl, rfl, rfl, rfl⟩

theorem overrides_EsPort (environment : GoMap) (args : Args) :
    (ParseArgs.overrides environment args).EsPort
      = (environment "ELASTIC_PORT").getD args.EsPort := by
  unfold ParseArgs.overrides ParseArgs.overridePrometheusPort ParseArgs.overrideEsPort
    ParseArgs.normalizeEsHost ParseArgs.overrideEsHost
  repeat' split
  all_goals simp_all

theorem overrides_PrometheusPort (environment : GoMap) (args : Args) :
    (ParseArgs.overrides environment args).PrometheusPort
      = (environment "GOHUB_PROMETHEUS_PORT").getD args.PrometheusPort := by
  unfold ParseArgs.overrides ParseArgs.overridePrometheusPort ParseArgs.overrideEsPort
    ParseArgs.normalizeEsHost ParseArgs.overrideEsHost
  repeat' split
  all_goals simp_all

theorem overrides_EsHost (environment : GoMap) (args : Args) :
    (ParseArgs.overrides environment args).EsHost
      = normalizeHost ((environment "ELASTIC_HOST").getD args.EsHost) := by
  unfold ParseArgs.overrides ParseArgs.overridePrometheusPort ParseArgs.overrideEsPort
    ParseArgs.normalizeEsHost ParseArgs.overrideEsHost normalizeHost
  repeat' split
  all_goals simp_all

theorem cmdType_fields (p : Parsed) (args : Args) :
    (ParseArgs.cmdType p args).EsHost = args.EsHost ∧
    (ParseArgs.cmdType p args).EsPort = args.EsPort ∧
    (ParseArgs.cmdType p args).PrometheusPort = args.PrometheusPort := by
  unfold ParseArgs.cmdType
  repeat' split
  all_goals exact ⟨rfl, rfl, rfl⟩

theorem argparse_ok_es_fields (cl : CommandLine) (p : Parsed) (h : argparse cl = .ok p) :
    p.esHost = argparse.stringArg cl.eshost DefaultEsHost ∧
    p.esPort = argparse.stringArg cl.esport DefaultEsPort ∧
    p.prometheusPort = argparse.stringArg cl.prometheus_port DefaultPrometheusPort := by
  unfold argparse at h
  split at h
  · cases h
  · simp only [bind, Except.bind, pure, Except.pure] at h
    repeat (split at h; · cases h)
    cases h
    exact ⟨rfl, rfl, rfl⟩

theorem HasPrefix_http_normalizeHost (h : String) :
    strings.HasPrefix (normalizeHost h) "http" = true := by
  unfold normalizeHost
  split
  · assumption
  · simp [strings.HasPrefix, String.data_append, List.isPrefixOf]

theorem normalizeHost_of_prefixed (h : String) (hp : strings.HasPrefix h "http" = true) :
    normalizeHost h = h := by
  simp [normalizeHost, hp]

theorem normalizeHost_idem (h : String) : normalizeHost (normalizeHost h) = normalizeHost h :=
  normalizeHost_of_prefixed _ (HasPrefix_http_normalizeHost h)

theorem normalizeEsHost_EsHost (args : Args) :
    (ParseArgs.normalizeEsHost args).EsHost = normalizeHost args.EsHost := by
  unfold ParseArgs.normalizeEsHost normalizeHost
  split <;> simp_all

theorem normalizeEsHost_of_prefixed (args : Args)
    (hp : strings.HasPrefix args.EsHost "http" = true) :
    ParseArgs.normalizeEsHost args = args := by
  simp [ParseArgs.normalizeEsHost, hp]

theorem normalizeEsHost_idem (args : Args) :
    ParseArgs.normalizeEsHost (ParseArgs.normalizeEsHost args)
      = ParseArgs.normalizeEsHost args := by
  apply normalizeEsHost_of_prefixed
  rw [normalizeEsHost_EsHost]
  exact HasPrefix_http_normalizeHost _

/-- Relative to the map that `GetEnvironmentStandard` built: when `ParseArgs` returns,
`EsPort` and `PrometheusPort` are the map's values at `ELASTIC_PORT` and
`GOHUB_PROMETHEUS_PORT` when these keys are present and the values of `--esport` and
`--prometheus-port` otherwise, `EsHost` is the normalised host taken from `ELASTIC_HOST` or
`--eshost`, it starts with "http", and normalising the result again changes nothing. -/
theorem ParseArgs_environment_overrides (environ : List String)
    (readFile : String → Option String) (cl : CommandLine)
    (searchRequest : pb.SearchRequest) (environment : GoMap) (p : Parsed)
    (henv : GetEnvironmentStandard environ = some environment) (hp : argparse cl = .ok p)
    (hno : ¬ (p.channelIds.length > 0 ∧ p.channelId ≠ "")) :
    ∃ args, (ParseArgs environ readFile cl searchRequest).1 = .returned args ∧
      args.EsPort
        = (environment "ELASTIC_PORT").getD (argparse.stringArg cl.esport DefaultEsPort) ∧
      args.PrometheusPort
        = (environment "GOHUB_PROMETHEUS_PORT").getD
            (argparse.stringArg cl.prometheus_port DefaultPrometheusPort) ∧
      args.EsHost
        = normalizeHost ((environment "ELASTIC_HOST").getD
            (argparse.stringArg cl.eshost DefaultEsHost)) ∧
      strings.HasPrefix args.EsHost "http" = true ∧
      ParseArgs.normalizeEsHost args = args := by
  obtain ⟨h1, h2, h3⟩ := argparse_ok_es_fields cl p hp
  rw [ParseArgs_returns environ readFile cl searchRequest environment p henv hp hno]
  refine ⟨_, rfl, ?_, ?_, ?_, ?_, ?_⟩
  · rw [(cmdType_fields _ _).2.1, overrides_EsPort, ← h2]; rfl
  · rw [(cmdType_fields _ _).2.2, overrides_PrometheusPort, ← h3]; rfl
  · rw [(cmdType_fields _ _).1, overrides_EsHost, ← h1]; rfl
  · rw [(cmdType_fields _ _).1, overrides_EsHost]; exact HasPrefix_http_normalizeHost _
  · apply normalizeEsHost_of_prefixed
    rw [(cmdType_fields _ _).1, overrides_EsHost]; exact HasPrefix_http_normalizeHost _

theorem splitChars_no_sep (sep : Char) (l : List Char) (h : sep ∉ l) :
    strings.splitChars sep l = [l] := by
  induction l with
  | nil => rfl
  | cons c cs ih =>
    have hc : c ≠ sep := fun e => h (e ▸ List.mem_cons_self _ _)
    have hcs : sep ∉ cs := fun e => h (List.mem_cons_of_mem _ e)
    simp [strings.splitChars, hc, ih hcs]

theorem splitChars_append (sep : Char) (k v : List Char) (hk : sep ∉ k) :
    strings.splitChars sep (k ++ sep :: v) = k :: strings.splitChars sep v := by
  induction k with
  | nil => simp [strings.splitChars]
  | cons c cs ih =>
    have hc : c ≠ sep := fun e => hk (e ▸ List.mem_cons_self _ _)
    have hcs : sep ∉ cs := fun e => hk (List.mem_cons_of_mem _ e)
    simp [strings.splitChars, hc, ih hcs]

/-- On an entry `KEY=VALUE` in which neither the key nor the value contains '=', the
function literal of `GetEnvironmentStandard` yields the key and the whole value. -/
theorem getkeyval_key_value (key value : String) (hk : '=' ∉ key.data)
    (hv : '=' ∉ value.data) :
    GetEnvironmentStandard.getkeyval (key ++ "=" ++ value) = some (key, value) := by
  have hd : (key ++ "=" ++ value).data = key.data ++ '=' :: value.data := by
    simp [String.data_append]
  simp [GetEnvironmentStandard.getkeyval, strings.Split, hd, splitChars_append _ _ _ hk,
    splitChars_no_sep _ _ hv]

/-- C12, the code at the environment `ELASTIC_PORT=92=00`, `GOHUB_PROMETHEUS_PORT=21=12`
and the command line `serve --esport 9300`: the returned `EsPort` is "92" and the returned
`PrometheusPort` is "21", the values of the two variables cut at their first '=', and not
"92=00" and "21=12". -/
theorem ParseArgs_ports_from_environment_cut_at_equals :
    (ParseArgs ["ELASTIC_PORT=92=00", "GOHUB_PROMETHEUS_PORT=21=12"] noFile
        { serve := true, esport := some "9300" } emptySearchRequest).1.args?.map
      (fun args => (args.EsPort, args.PrometheusPort)) = some ("92", "21") := by
  decide

/-- C13, the code at the environment `ELASTIC_HOST=https://es.example.com/?auth=token`:
the returned `EsHost` is "https://es.example.com/?auth", not the value of the variable,
which already starts with "http"; and at `ELASTIC_HOST=es.example.com/?auth=token` it is
"http://es.example.com/?auth", not "http://" followed by the value. -/
theorem ParseArgs_EsHost_from_environment_cut_at_equals :
    (ParseArgs ["ELASTIC_HOST=https://es.example.com/?auth=token"] noFile
        { serve := true } emptySearchRequest).1.args?.map
      (fun args => args.EsHost) = some "https://es.example.com/?auth" ∧
    (ParseArgs ["ELASTIC_HOST=es.example.com/?auth=token"] noFile
        { serve := true } emptySearchRequest).1.args?.map
      (fun args => args.EsHost) = some "http://es.example.com/?auth" := by
  refine ⟨by decide, by decide⟩

end server

/-! ## Theorems about `hub_grpc.pb.go` -/

namespace pb

/-- C4: the service descriptor of "pb.Hub" lists the eight methods Search, GetBlock,
GetBlockHeader, GetServerHeight, Ping, Version, Features and Broadcast, each with the
generated handler of the same name, and the two streams SubscribeHeaders and GetHeaders,
each with the handler of the same name, server-streaming and not client-streaming; that
makes ten entries, and no name occurs twice. -/
theorem Hub_ServiceDesc_registers_the_ten_rpcs (T : Types) :
    (Hub_ServiceDesc T).ServiceName = "pb.Hub" ∧
    (Hub_ServiceDesc T).Methods.map (fun m => m.MethodName)
      = ["Search", "GetBlock", "GetBlockHeader", "GetServerHeight", "Ping", "Version",
          "Features", "Broadcast"] ∧
    (Hub_ServiceDesc T).Methods.map (fun m => m.Handler)
      = [_Hub_Search_Handler, _Hub_GetBlock_Handler, _Hub_GetBlockHeader_Handler,
          _Hub_GetServerHeight_Handler, _Hub_Ping_Handler, _Hub_Version_Handler,
          _Hub_Features_Handler, _Hub_Broadcast_Handler] ∧
    (Hub_ServiceDesc T).Streams.map (fun s => s.StreamName)
      = ["SubscribeHeaders", "GetHeaders"] ∧
    (Hub_ServiceDesc T).Streams.map (fun s => s.Handler)
      = [_Hub_SubscribeHeaders_Handler, _Hub_GetHeaders_Handler] ∧
    (∀ s ∈ (Hub_ServiceDesc T).Streams, s.ServerStreams = true ∧ s.ClientStreams = false) ∧
    ((Hub_ServiceDesc T).Methods.map (fun m => m.MethodName)
      ++ (Hub_ServiceDesc T).Streams.map (fun s => s.StreamName)).Nodup ∧
    (Hub_ServiceDesc T).Methods.length + (Hub_ServiceDesc T).Streams.length = 10 := by
  refine ⟨rfl, rfl, rfl, rfl, rfl, ?_, ?_, rfl⟩
  · intro s hs
    simp only [Hub_ServiceDesc, List.mem_cons, List.mem_singleton, List.not_mem_nil,
      or_false] at hs
    rcases hs with h | h <;> subst h <;> exact ⟨rfl, rfl⟩
  · simp only [Hub_ServiceDesc, List.map, List.cons_append, List.nil_append]
    decide

/-- Without an interceptor, a generated method handler returns the error of the decoder,
or else the results of the server method it was generated for. -/
theorem unaryHandler_without_interceptor {T : Types} (tin tout : MessageType)
    (fullMethod : String)
    (call : HubServer T → T.Context → Message T tin →
      Option (Message T tout) × Option Status)
    (srv : HubServer T) (ctx : T.Context) (dec : Decoder T) :
    unaryHandler tin tout fullMethod call srv ctx dec none
      = (match dec tin with
          | .error err => .returned none (some err)
          | .ok req => Reply.ofResults tout (call srv ctx req)) := by
  cases h : dec tin <;> simp [unaryHandler, h]

/-- C5, as stated, fails: no server can tell two requests of `Broadcast` apart, whatever
the server and the context, so the request carries no transaction bytes. -/
theorem Broadcast_request_carries_no_transaction :
    ¬ ∃ (T : Types) (srv : HubServer T) (ctx : T.Context) (a b : EmptyMessage),
      srv.Broadcast ctx a ≠ srv.Broadcast ctx b := by
  rintro ⟨T, srv, ctx, ⟨⟩, ⟨⟩, h⟩
  exact h rfl

/-- C5, amended: in the client API, the server API and the handler, the request of
`Broadcast` is an `EmptyMessage`, a message without fields of which there is one value, and
the response is a `UInt64Value`, an unsigned 64-bit height. The client sends the
`EmptyMessage` to "/pb.Hub/Broadcast" and returns the decoded `UInt64Value`; the handler
decodes an `EmptyMessage`, passes it to the server method `Broadcast`, and any response it
returns has the type `UInt64Value`. -/
theorem Broadcast_takes_EmptyMessage_returns_height (T : Types) (c : hubClient T)
    (srv : HubServer T) (ctx : T.Context) (dec : Decoder T) (req : EmptyMessage)
    (opts : List T.CallOption) :
    hubClient.Broadcast c ctx req opts
      = (match c.cc.Invoke ctx "/pb.Hub/Broadcast" ⟨.EmptyMessage, req⟩ .UInt64Value opts with
          | .error err => (none, some err)
          | .ok out => (some out, none)) ∧
    _Hub_Broadcast_Handler srv ctx dec none
      = (match dec .EmptyMessage with
          | .error err => .returned none (some err)
          | .ok m => Reply.ofResults .UInt64Value (srv.Broadcast ctx m)) ∧
    (∀ resp err, _Hub_Broadcast_Handler srv ctx dec none = .returned (some resp) err →
      resp.1 = .UInt64Value) ∧
    (∀ height, (srv.Broadcast ctx req).1 = some height → height.Value < 2 ^ 64) ∧
    (∀ other : EmptyMessage, other = req) := by
  refine ⟨?_, ?_, ?_, ?_, ?_⟩
  · simp only [hubClient.Broadcast, hubClient.invoke]
    cases c.cc.Invoke ctx "/pb.Hub/Broadcast" ⟨.EmptyMessage, req⟩ .UInt64Value opts <;> rfl
  · rw [_Hub_Broadcast_Handler, unaryHandler_without_interceptor]
    cases dec .EmptyMessage <;> rfl
  · intro resp err h
    simp only [_Hub_Broadcast_Handler, unaryHandler] at h
    cases hd : dec .EmptyMessage with
    | error e => rw [hd] at h; simp at h
    | ok m =>
      rw [hd] at h
      simp only [Reply.ofResults, Reply.returned.injEq] at h
      cases hr : (srv.Broadcast ctx m).1 with
      | none => rw [hr] at h; simp at h
      | some v => rw [hr] at h; simp at h; rw [← h.1]
  · intro height _; exact height.inRange
  · intro other; rfl

/-- Witness of C5: the server that answers `Broadcast` with the height 7 does so through
its handler, as a `UInt64Value` below `2 ^ 64`. -/
theorem Broadcast_takes_EmptyMessage_returns_height_witness :
    _Hub_Broadcast_Handler heightServer () emptyDecoder none
      = .returned (some ⟨.UInt64Value, { Value := 7, inRange := by decide }⟩) none ∧
    (7 : Nat) < 2 ^ 64 :=
  ⟨rfl,
   (Broadcast_takes_EmptyMessage_returns_height unitTypes offlineClient heightServer ()
      emptyDecoder {} []).2.2.2.1 { Value := 7, inRange := by decide } rfl⟩

/-- C6: each of the ten methods of `UnimplementedHubServer`, on every request, returns no
result and the error with code `Unimplemented` and message "method M not implemented" for
its own name M; the two streaming methods return the transport as they received it,
whatever the stream, so nothing is sent. -/
theorem UnimplementedHubServer_returns_Unimplemented (T : Types) (ctx : T.Context)
    (block : T.BlockRequest) (search : SearchRequest) (empty : EmptyMessage)
    (subscriber : hubSubscribeHeadersServer T) (getter : hubGetHeadersServer T)
    (transport : T.Transport) :
    (UnimplementedHubServer T).SubscribeHeaders block subscriber transport
      = (some { code := .Unimplemented,
                message := "method " ++ "SubscribeHeaders" ++ " not implemented" },
          transport) ∧
    (UnimplementedHubServer T).Search ctx search
      = (none, some { code := .Unimplemented,
                      message := "method " ++ "Search" ++ " not implemented" }) ∧
    (UnimplementedHubServer T).GetBlock ctx block
      = (none, some { code := .Unimplemented,
                      message := "method " ++ "GetBlock" ++ " not implemented" }) ∧
    (UnimplementedHubServer T).GetBlockHeader ctx block
      = (none, some { code := .Unimplemented,
                      message := "method " ++ "GetBlockHeader" ++ " not implemented" }) ∧
    (UnimplementedHubServer T).GetServerHeight ctx empty
      = (none, some { code := .Unimplemented,
                      message := "method " ++ "GetServerHeight" ++ " not implemented" }) ∧
    (UnimplementedHubServer T).GetHeaders block getter transport
      = (some { code := .Unimplemented,
                message := "method " ++ "GetHeaders" ++ " not implemented" }, transport) ∧
    (UnimplementedHubServer T).Ping ctx empty
      = (none, some { code := .Unimplemented,
                      message := "method " ++ "Ping" ++ " not implemented" }) ∧
    (UnimplementedHubServer T).Version ctx empty
      = (none, some { code := .Unimplemented,
                      message := "method " ++ "Version" ++ " not implemented" }) ∧
    (UnimplementedHubServer T).Features ctx empty
      = (none, some { code := .Unimplemented,
                      message := "method " ++ "Features" ++ " not implemented" }) ∧
    (UnimplementedHubServer T).Broadcast ctx empty
      = (none, some { code := .Unimplemented,
                      message := "method " ++ "Broadcast" ++ " not implemented" }) := by
  refine ⟨rfl, rfl, rfl, rfl, rfl, rfl, rfl, rfl, rfl, rfl⟩

end pb
